import Mathlib

/-!
Verification of the Neovolt Modbus integration (NeovoltBattery_ModbusPlugin).

Shallow embedding of the Python sources:
* register values read from the device are unsigned 16-bit, modelled as `ℕ`;
* Python `int` arithmetic is modelled by `ℤ` (arbitrary precision, no overflow);
* Python `float` quantities (poll intervals, kWh totals, SOC percentages) are
  modelled exactly by `ℚ`; the Python literals `0.9`, `1.1`, `2.55`, `2.5`
  become the rationals `9/10`, `11/10`, `51/20`, `5/2`;
* Python dicts are modelled either as association lists (`List (String × α)`,
  the decoders emit a fixed key order) or as partial maps `String → Option α`;
* timestamps are modelled as `ℚ` seconds (`datetime` differences only ever
  flow through `total_seconds()` comparisons in the relevant code).
-/

/-! ### Dispatch command frame (const.py, dynamic_export.py, coordinator.py) -/

/-- Power offset of the dispatch protocol (`const.MODBUS_OFFSET = 32000`). -/
def MODBUS_OFFSET : ℤ := 32000

/-- Dispatch mode 2, power with SOC limit (`const.DISPATCH_MODE_POWER_WITH_SOC`). -/
def DISPATCH_MODE_POWER_WITH_SOC : ℤ := 2

/-- Default dispatch duration in seconds (`const.DISPATCH_DURATION_DEFAULT`). -/
def DISPATCH_DURATION_DEFAULT : ℤ := 90

/-- Idle/reset dispatch frame (`const.DISPATCH_RESET_VALUES`):
`[0, 0, MODBUS_OFFSET, 0, MODBUS_OFFSET, 0, 0, 0, DISPATCH_DURATION_DEFAULT, 255, 0]`. -/
def DISPATCH_RESET_VALUES : List ℤ :=
  [0, 0, MODBUS_OFFSET, 0, MODBUS_OFFSET, 0, 0, 0, DISPATCH_DURATION_DEFAULT, 255, 0]

/-- Two 16-bit registers to an unsigned 32-bit value
(`coordinator.NeovoltDataUpdateCoordinator._to_unsigned_32`):
`(high << 16) | low`.  Register values from the device are unsigned 16-bit. -/
def to_unsigned_32 (high low : ℕ) : ℕ := (high <<< 16) ||| low

/-- Unsigned 16-bit register to signed
(`coordinator.NeovoltDataUpdateCoordinator._to_signed`). -/
def to_signed (value : ℕ) : ℤ :=
  if value > 32767 then (value : ℤ) - 65536 else (value : ℤ)

/-- Dispatch block decode (`coordinator._parse_dispatch_registers`):
`dispatch_start = regs[0]` and
`dispatch_power = to_unsigned_32(regs[1], regs[2]) - 32000`.
Returned as the pair `(dispatch_start, dispatch_power)`. -/
def parse_dispatch_registers (regs : List ℕ) : ℤ × ℤ :=
  let power_raw := to_unsigned_32 (regs.getD 1 0) (regs.getD 2 0)
  ((regs.getD 0 0 : ℤ), (power_raw : ℤ) - MODBUS_OFFSET)

/-- Frame built by `DynamicExportManager._send_discharge_command`;
`power_watts = int(power_kw * 1000)` is a nonnegative magnitude and
`soc_value` comes from the SOC conversion.  The power slot (Para2 low,
index 2) holds `MODBUS_OFFSET + power_watts`; the high word (index 1) is 0;
the timeout is `min(600, 65535)` seconds.  Entries are Python ints (`ℤ`). -/
def dischargeCommandValues (power_watts soc_value : ℤ) : List ℤ :=
  [1, 0, MODBUS_OFFSET + power_watts, 0, 0, DISPATCH_MODE_POWER_WITH_SOC,
   soc_value, 0, min 600 65535, 255, 0]

/-- Frame built by `DynamicExportManager._send_charge_command`; identical to
the discharge frame except the power slot holds `MODBUS_OFFSET - power_watts`. -/
def chargeCommandValues (power_watts soc_value : ℤ) : List ℤ :=
  [1, 0, MODBUS_OFFSET - power_watts, 0, 0, DISPATCH_MODE_POWER_WITH_SOC,
   soc_value, 0, min 600 65535, 255, 0]

/-- Registers as the device stores them after a frame whose entries lie in the
valid register range is written: each Python int becomes the unsigned 16-bit
register holding the same value. -/
def regsOfFrame (frame : List ℤ) : List ℕ := frame.map Int.toNat

/-- With a zero high word, the unsigned-32 reconstruction is the low word. -/
theorem to_unsigned_32_zero_high (low : ℕ) : to_unsigned_32 0 low = low := by
  simp [to_unsigned_32, Nat.zero_shiftLeft, Nat.zero_or]

/-- C1: encoding a charge command of magnitude `p` puts `32000 - p` in the
power slot (Para2 low, high word 0) and a discharge command puts `32000 + p`
there; decoding the resulting 11-register frame recovers the same signed
value, negative for charge and positive for discharge; the reset frame has
power register exactly 32000, which decodes back to 0. -/
theorem dispatch_power_roundtrip (p soc : ℤ) (hp : 0 ≤ p) (hc : p ≤ 32000) :
    (chargeCommandValues p soc).getD 2 0 = MODBUS_OFFSET - p
  ∧ (chargeCommandValues p soc).getD 1 0 = 0
  ∧ (dischargeCommandValues p soc).getD 2 0 = MODBUS_OFFSET + p
  ∧ (dischargeCommandValues p soc).getD 1 0 = 0
  ∧ (parse_dispatch_registers (regsOfFrame (chargeCommandValues p soc))).2 = -p
  ∧ (parse_dispatch_registers (regsOfFrame (dischargeCommandValues p soc))).2 = p
  ∧ (0 < p →
      (parse_dispatch_registers (regsOfFrame (chargeCommandValues p soc))).2 < 0
      ∧ 0 < (parse_dispatch_registers (regsOfFrame (dischargeCommandValues p soc))).2)
  ∧ DISPATCH_RESET_VALUES.getD 2 0 = 32000
  ∧ (parse_dispatch_registers (regsOfFrame DISPATCH_RESET_VALUES)).2 = 0 := by
  refine ⟨rfl, rfl, rfl, rfl, ?_, ?_, ?_, rfl, ?_⟩
  · simp only [parse_dispatch_registers, regsOfFrame, chargeCommandValues,
      MODBUS_OFFSET, List.map_cons, List.getD_cons_zero, List.getD_cons_succ,
      Int.toNat_zero, to_unsigned_32_zero_high]
    omega
  · simp only [parse_dispatch_registers, regsOfFrame, dischargeCommandValues,
      MODBUS_OFFSET, List.map_cons, List.getD_cons_zero, List.getD_cons_succ,
      Int.toNat_zero, to_unsigned_32_zero_high]
    omega
  · intro hpos
    constructor
    · simp only [parse_dispatch_registers, regsOfFrame, chargeCommandValues,
        MODBUS_OFFSET, List.map_cons, List.getD_cons_zero, List.getD_cons_succ,
        Int.toNat_zero, to_unsigned_32_zero_high]
      omega
    · simp only [parse_dispatch_registers, regsOfFrame, dischargeCommandValues,
        MODBUS_OFFSET, List.map_cons, List.getD_cons_zero, List.getD_cons_succ,
        Int.toNat_zero, to_unsigned_32_zero_high]
      omega
  · decide

/-- Witness for C1 at a concrete input: a 5000 W command with SOC register 255. -/
theorem dispatch_power_roundtrip_witness :
    (parse_dispatch_registers (regsOfFrame (chargeCommandValues 5000 255))).2 = -5000
  ∧ (parse_dispatch_registers (regsOfFrame (dischargeCommandValues 5000 255))).2 = 5000 :=
  ⟨(dispatch_power_roundtrip 5000 255 (by decide) (by decide)).2.2.2.2.1,
   (dispatch_power_roundtrip 5000 255 (by decide) (by decide)).2.2.2.2.2.1⟩

/-! ### SOC percentage to register conversions (select.py, switch.py, dynamic_export.py) -/

/-- Python `round`: round half to even (banker's rounding), on exact rationals. -/
def pythonRound (q : ℚ) : ℤ :=
  let f := ⌊q⌋
  let r := q - f
  if r < 1/2 then f
  else if 1/2 < r then f + 1
  else if f % 2 = 0 then f else f + 1

/-- `const.SOC_CONVERSION_FACTOR = 2.55` as the exact rational 51/20; the
program stores it as an IEEE-754 binary64 double, see `FLOAT_2_55`. -/
def SOC_CONVERSION_FACTOR : ℚ := 2.55

/-- Floor of the base-2 logarithm by fuelled halving (fuel well above the bit
lengths arising here); `natLog2F fuel n` is `⌊log2 n⌋` for `1 ≤ n < 2^fuel`. -/
def natLog2F : ℕ → ℕ → ℕ
  | 0, _ => 0
  | fuel + 1, n => if 2 ≤ n then natLog2F fuel (n / 2) + 1 else 0

/-- A dyadic number `m * 2^e`: the exact value of an IEEE-754 binary64 double
(every finite double is of this form).  Python floats are binary64. -/
structure Dyadic where
  m : ℤ
  e : ℤ
deriving DecidableEq

/-- Exact rational value of a dyadic number. -/
def dyadicVal (d : Dyadic) : ℚ :=
  if 0 ≤ d.e then (d.m : ℚ) * 2 ^ d.e.toNat else (d.m : ℚ) / 2 ^ (-d.e).toNat

/-- IEEE-754 round-to-nearest, ties to even, of an exact dyadic value `m * 2^e`
to a binary64 double: a significand of at most 53 bits is kept exactly,
otherwise the excess low bits are rounded off half-to-even.  (The normal
range is never left for the values arising here, so overflow and subnormal
handling are not modelled.) -/
def roundDyadicToDouble (m e : ℤ) : Dyadic :=
  if m = 0 then ⟨0, 0⟩
  else
    let n := m.natAbs
    let bits := natLog2F 4096 n + 1
    if bits ≤ 53 then ⟨m, e⟩
    else
      let shift := bits - 53
      let d : ℕ := 2 ^ shift
      let q := n / d
      let r := n % d
      let q2 := if 2 * r < d then q
        else if d < 2 * r then q + 1
        else if q % 2 = 0 then q else q + 1
      ⟨if m < 0 then -(q2 : ℤ) else (q2 : ℤ), e + shift⟩

/-- IEEE-754 round-to-nearest, ties to even, of the exact quotient `a / b`
(`0 < a`, `0 < b`; junk value otherwise) to a binary64 double: the binade of
the quotient is located by integer comparisons, the 53-bit significand is the
correctly rounded integer quotient at that scale, ties broken to even using
the exact remainder. -/
def roundQuotientToDouble (a b : ℤ) : Dyadic :=
  if a ≤ 0 ∨ b ≤ 0 then ⟨0, 0⟩
  else
    let na := a.natAbs
    let nb := b.natAbs
    let e0 : ℤ := (natLog2F 4096 na : ℤ) - (natLog2F 4096 nb : ℤ)
    let e := if (if 0 ≤ e0 then nb * 2 ^ e0.toNat ≤ na else nb ≤ na * 2 ^ (-e0).toNat)
      then e0 else e0 - 1
    let s : ℤ := 52 - e
    let num : ℕ := if 0 ≤ s then na * 2 ^ s.toNat else na
    let den : ℕ := if 0 ≤ s then nb else nb * 2 ^ (-s).toNat
    let q := num / den
    let r := num % den
    let q2 := if 2 * r < den then q
      else if den < 2 * r then q + 1
      else if q % 2 = 0 then q else q + 1
    ⟨(q2 : ℤ), e - 52⟩

/-- Binary64 multiplication of two doubles: the exact product is dyadic and is
rounded back to a double. -/
def floatMulD (x y : Dyadic) : Dyadic := roundDyadicToDouble (x.m * y.m) (x.e + y.e)

/-- Binary64 division of two doubles: the significand of the exact quotient
depends only on the mantissas, the exponents shift the result by a power of 2
(rounding commutes with powers of 2 inside the normal range). -/
def floatDivD (x y : Dyadic) : Dyadic :=
  let d := roundQuotientToDouble x.m y.m
  ⟨d.m, d.e + x.e - y.e⟩

/-- Python `round` applied to a float: round half to even on the exact dyadic
value of the double. -/
def dyadicPythonRound (d : Dyadic) : ℤ :=
  if 0 ≤ d.e then d.m * 2 ^ d.e.toNat
  else
    let k : ℤ := 2 ^ (-d.e).toNat
    let q := Int.fdiv d.m k
    let r := Int.fmod d.m k
    if 2 * r < k then q else if k < 2 * r then q + 1 else if q % 2 = 0 then q else q + 1

/-- Python `int()` applied to a float: truncation toward zero of the exact
dyadic value of the double. -/
def dyadicPythonInt (d : Dyadic) : ℤ :=
  if 0 ≤ d.e then d.m * 2 ^ d.e.toNat else Int.tdiv d.m (2 ^ (-d.e).toNat)

/-- The binary64 double denoted by the Python literal `2.55`
(`const.SOC_CONVERSION_FACTOR` and the literal in `switch.py`/`select.py`):
`2871044762448691 * 2^(-50)`; `FLOAT_2_55_correct` below proves this is the
correctly rounded value of 51/20. -/
def FLOAT_2_55 : Dyadic := ⟨2871044762448691, -50⟩

/-- The binary64 double denoted by the Python literal `2.5`
(`dynamic_export.py`): exactly 5/2. -/
def FLOAT_2_5 : Dyadic := ⟨5, -1⟩

/-- `FLOAT_2_55` is the binary64 nearest 2.55: its significand is a normal
52-bit-plus-one value in [2^51, 2^52) (so the spacing of doubles around it is
2^(-51)) and its value is within half that spacing of the exact 51/20; the
distance is not a tie, so it is the unique nearest double. -/
theorem FLOAT_2_55_correct :
    |dyadicVal FLOAT_2_55 - SOC_CONVERSION_FACTOR| < 1/2^52
  ∧ (2:ℤ)^51 ≤ FLOAT_2_55.m ∧ FLOAT_2_55.m < (2:ℤ)^52 := by
  refine ⟨?_, by decide, by decide⟩
  rw [abs_sub_lt_iff]
  simp only [dyadicVal, FLOAT_2_55, SOC_CONVERSION_FACTOR]
  norm_num [show ((50:ℤ)).toNat = 50 from rfl]

/-- `FLOAT_2_5` is exactly the rational 5/2 = 2.5. -/
theorem FLOAT_2_5_correct : dyadicVal FLOAT_2_5 = 5/2 := by
  simp only [dyadicVal, FLOAT_2_5]
  norm_num [show ((1:ℤ)).toNat = 1 from rfl]

/-- `select.soc_percent_to_register`: raises `ValueError` (here `none`)
outside [0, 100], otherwise `round(soc_percent * SOC_CONVERSION_FACTOR)`
clamped to [MIN_SOC_REGISTER, MAX_SOC_REGISTER] = [0, 255], with the
multiplication and rounding in binary64 arithmetic as Python performs them.
The argument is the integer percentage the call sites pass
(`int(safe_get_entity_float(...))`), an exactly represented double. -/
def soc_percent_to_register_select (soc_percent : ℤ) : Option ℤ :=
  if ¬ (0 ≤ soc_percent ∧ soc_percent ≤ 100) then none
  else some (max 0 (min 255 (dyadicPythonRound (floatMulD ⟨soc_percent, 0⟩ FLOAT_2_55))))

/-- `switch.soc_percent_to_register`: raises (here `none`) outside [0, 100],
otherwise `int(soc_percent / SOC_CONVERSION_FACTOR)` clamped to [0, 255], in
binary64 arithmetic.  Note the division where `const.py` documents the factor
as a multiplier. -/
def soc_percent_to_register_switch (soc_percent : ℤ) : Option ℤ :=
  if ¬ (0 ≤ soc_percent ∧ soc_percent ≤ 100) then none
  else some (max 0 (min 255 (dyadicPythonInt (floatDivD ⟨soc_percent, 0⟩ FLOAT_2_55))))

/-- `dynamic_export.soc_percent_to_register`: `int(soc_percent * 2.5)` clamped
to [0, 250]; no range check; binary64 arithmetic (exact here, 2.5 being a
power-of-two multiple of an integer). -/
def soc_percent_to_register_dynamic (soc_percent : ℤ) : ℤ :=
  max 0 (min 250 (dyadicPythonInt (floatMulD ⟨soc_percent, 0⟩ FLOAT_2_5)))

/-- C2 (code bug): no conversion realises the documented
`round(percent * 2.55)` → [0,255] convention at all documented points.  The
`select.py` conversion implements the documented formula but binary64
arithmetic makes `50 * 2.55` round to 127.49999999999999, so 50 ↦ 127 and not
the documented 128 (0 ↦ 0 and 100 ↦ 255 do hold); the `switch.py` conversion
divides by the factor (100 ↦ 39); the `dynamic_export.py` conversion uses the
old `int(percent * 2.5)`/250 convention (50 ↦ 125, 100 ↦ 250). -/
theorem soc_conversion_divergence :
    soc_percent_to_register_select 0 = some 0
  ∧ soc_percent_to_register_select 50 = some 127
  ∧ soc_percent_to_register_select 50 ≠ some 128
  ∧ soc_percent_to_register_select 100 = some 255
  ∧ soc_percent_to_register_switch 100 = some 39
  ∧ soc_percent_to_register_switch 100 ≠ some 255
  ∧ soc_percent_to_register_dynamic 50 = 125
  ∧ soc_percent_to_register_dynamic 100 = 250
  ∧ soc_percent_to_register_dynamic 100 ≠ 255 := by
  refine ⟨?_, ?_, ?_, ?_, ?_, ?_, ?_, ?_, ?_⟩ <;> decide

/-! ### Derived values: house load and export split
(`coordinator._calculate_derived_values`, lines 601-669; the daily-energy
glue that mutates coordinator state is modelled separately below). -/

/-- Decoded power values the derived-value calculator reads from the merged
snapshot; `none` models a key absent from the dict (`data.get(key, 0)`). -/
structure PowerData where
  pv_dc_power_total : Option ℤ
  pv_ac_power_total : Option ℤ
  pv1_power : Option ℤ
  pv2_power : Option ℤ
  pv3_power : Option ℤ
  battery_power : Option ℤ
  grid_power_total : Option ℤ

/-- The `successful_reads` flags of `_fetch_data_adaptive`: set on a successful
read of the block this cycle, or when the block was not due and previously
cached values exist. -/
structure SuccessfulReads where
  pv : Bool
  battery : Bool
  grid : Bool

/-- Derived outputs written into the snapshot by `_calculate_derived_values`.
`total_house_load` and `house_load_estimated` can be Python `None`. -/
structure DerivedValues where
  pv_power_total : ℤ
  current_pv_production : ℤ
  total_house_load : Option ℤ
  house_load_estimated : Option Bool
  excess_grid_export : ℤ

/-- `sum([successful_reads.get("pv"), ..."battery", ..."grid"])`. -/
def available_sources (sr : SuccessfulReads) : ℕ :=
  (cond sr.pv 1 0) + (cond sr.battery 1 0) + (cond sr.grid 1 0)

/-- House-load portion of `coordinator._calculate_derived_values`:
`pv_power_total = pv_dc + pv_ac`, `current_pv_production = pv1 + pv2 + pv3`;
with at least 2 of 3 sources available, `total_house_load` is the signed sum
and `excess_grid_export` its absolute value when negative (else 0), with
`house_load_estimated = available_sources < 3`; with fewer than 2 sources,
`total_house_load` and `house_load_estimated` are `None` and
`excess_grid_export` is 0. -/
def calculate_derived_values (d : PowerData) (sr : SuccessfulReads) : DerivedValues :=
  let pv_power := d.pv_dc_power_total.getD 0 + d.pv_ac_power_total.getD 0
  let current_pv := d.pv1_power.getD 0 + d.pv2_power.getD 0 + d.pv3_power.getD 0
  let battery_power := d.battery_power.getD 0
  let grid_power := d.grid_power_total.getD 0
  if 2 ≤ available_sources sr then
    let house_load := pv_power + battery_power + grid_power
    if house_load < 0 then
      ⟨pv_power, current_pv, some house_load,
        some (decide (available_sources sr < 3)), |house_load|⟩
    else
      ⟨pv_power, current_pv, some house_load,
        some (decide (available_sources sr < 3)), 0⟩
  else
    ⟨pv_power, current_pv, none, none, 0⟩

/-- C3 counterexample: with only pv and battery observed (grid never read),
the calculator still reports a house load (here `some 0`), not `None`. -/
theorem house_load_two_sources_counterexample :
    (calculate_derived_values ⟨none, none, none, none, none, none, none⟩
      ⟨true, true, false⟩).total_house_load = some 0
  ∧ (calculate_derived_values ⟨none, none, none, none, none, none, none⟩
      ⟨true, true, false⟩).total_house_load ≠ none := by
  constructor <;> decide

/-- C3 (amended): `total_house_load` is the sum of the three contributions
(absent ones defaulting to 0) whenever at least two of the three blocks
(pv, battery, grid) are available, flagged estimated when only two are; with
fewer than two available it is `None` (never zero), as is the estimated flag. -/
theorem house_load_availability (d : PowerData) (sr : SuccessfulReads) :
    (2 ≤ available_sources sr →
      (calculate_derived_values d sr).total_house_load =
        some (d.pv_dc_power_total.getD 0 + d.pv_ac_power_total.getD 0
          + d.battery_power.getD 0 + d.grid_power_total.getD 0)
      ∧ (calculate_derived_values d sr).house_load_estimated =
        some (decide (available_sources sr < 3)))
  ∧ (available_sources sr < 2 →
      (calculate_derived_values d sr).total_house_load = none
      ∧ (calculate_derived_values d sr).house_load_estimated = none) := by
  constructor
  · intro h
    simp only [calculate_derived_values]
    rw [if_pos h]
    split <;> exact ⟨rfl, rfl⟩
  · intro h
    simp only [calculate_derived_values]
    rw [if_neg (by omega)]
    exact ⟨rfl, rfl⟩

/-- Witness for C3 (amended): two sources (pv, grid) observed gives the signed
sum; a single source gives `None`. -/
theorem house_load_availability_witness :
    (calculate_derived_values ⟨some 100, none, none, none, none, none, some 200⟩
      ⟨true, false, true⟩).total_house_load = some 300
  ∧ (calculate_derived_values ⟨some 100, none, none, none, none, none, some 200⟩
      ⟨false, false, true⟩).total_house_load = none := by
  constructor
  · exact ((house_load_availability ⟨some 100, none, none, none, none, none, some 200⟩
      ⟨true, false, true⟩).1 (by decide)).1
  · exact ((house_load_availability ⟨some 100, none, none, none, none, none, some 200⟩
      ⟨false, false, true⟩).2 (by decide)).1

/-- C4: with grid = −7000 W, battery = 5000 W, pv = 0 W and all three sources
available, house load is −2000 W (signed, unclamped) and excess export 2000 W;
in general, with all three available the house load is the signed sum and the
excess export its negation exactly when negative; and whenever the sum is
nonnegative the excess export is 0. -/
theorem house_load_signed_export (d : PowerData) (sr : SuccessfulReads) :
    ((calculate_derived_values ⟨none, none, none, none, none, some 5000, some (-7000)⟩
        ⟨true, true, true⟩).total_house_load = some (-2000)
      ∧ (calculate_derived_values ⟨none, none, none, none, none, some 5000, some (-7000)⟩
        ⟨true, true, true⟩).excess_grid_export = 2000)
  ∧ (sr.pv = true → sr.battery = true → sr.grid = true →
      (calculate_derived_values d sr).total_house_load =
        some (d.pv_dc_power_total.getD 0 + d.pv_ac_power_total.getD 0
          + d.battery_power.getD 0 + d.grid_power_total.getD 0)
      ∧ (calculate_derived_values d sr).excess_grid_export =
        (if d.pv_dc_power_total.getD 0 + d.pv_ac_power_total.getD 0
            + d.battery_power.getD 0 + d.grid_power_total.getD 0 < 0
          then -(d.pv_dc_power_total.getD 0 + d.pv_ac_power_total.getD 0
            + d.battery_power.getD 0 + d.grid_power_total.getD 0)
          else 0))
  ∧ (0 ≤ d.pv_dc_power_total.getD 0 + d.pv_ac_power_total.getD 0
        + d.battery_power.getD 0 + d.grid_power_total.getD 0 →
      (calculate_derived_values d sr).excess_grid_export = 0) := by
  refine ⟨by constructor <;> decide, ?_, ?_⟩
  · intro hpv hb hg
    have hav : available_sources sr = 3 := by
      simp [available_sources, hpv, hb, hg]
    simp only [calculate_derived_values, hav]
    rw [if_pos (by omega : (2:ℕ) ≤ 3)]
    split_ifs with h
    · exact ⟨rfl, abs_of_neg h⟩
    · exact ⟨rfl, rfl⟩
  · intro h
    simp only [calculate_derived_values]
    split_ifs with h1 h2
    · omega
    · rfl
    · rfl

/-- Witness for C4 at a concrete input with a nonnegative sum. -/
theorem house_load_signed_export_witness :
    (calculate_derived_values ⟨some 3000, none, none, none, none, some 0, some 2000⟩
      ⟨true, true, true⟩).total_house_load = some 5000
  ∧ (calculate_derived_values ⟨some 3000, none, none, none, none, some 0, some 2000⟩
      ⟨true, true, true⟩).excess_grid_export = 0 :=
  ⟨((house_load_signed_export ⟨some 3000, none, none, none, none, some 0, some 2000⟩
      ⟨true, true, true⟩).2.1 rfl rfl rfl).1,
   (house_load_signed_export ⟨some 3000, none, none, none, none, some 0, some 2000⟩
      ⟨true, true, true⟩).2.2 (by decide)⟩

/-! ### Adaptive polling manager (`coordinator.AdaptivePollingManager`) -/

/-- Values decoded for one register block: an association list modelling the
Python dict returned by the per-block parser (the decoders emit a fixed key
order, so dict equality coincides with list equality). -/
abbrev BlockVals := List (String × ℚ)

/-- State of `AdaptivePollingManager`; the four dicts keyed by block name are
partial maps. Intervals and timestamps are `ℚ` (Python floats / seconds). -/
structure AdaptivePollingManager where
  min_interval : ℚ
  max_interval : ℚ
  default_interval : ℚ
  block_intervals : String → Option ℚ
  block_last_poll : String → Option ℚ
  block_last_values : String → Option BlockVals
  block_consecutive_failures : String → Option ℕ

/-- `AdaptivePollingManager.__init__`: the minimum interval is hard-floored at
10 s (`max(min_interval, 10)`), all per-block dicts start empty. -/
def mkAdaptivePollingManager (min_interval max_interval default_interval : ℚ) :
    AdaptivePollingManager :=
  ⟨max min_interval 10, max_interval, default_interval,
   fun _ => none, fun _ => none, fun _ => none, fun _ => none⟩

/-- `AdaptivePollingManager.should_poll_block`: poll when never polled, or when
the elapsed time since the last poll reaches the block's current interval
(`default_interval` when the block has no interval yet). -/
def should_poll_block (m : AdaptivePollingManager) (block_name : String) (now : ℚ) : Bool :=
  match m.block_last_poll block_name with
  | none => true
  | some last_poll =>
      decide ((m.block_intervals block_name).getD m.default_interval ≤ now - last_poll)

/-- `AdaptivePollingManager.update_after_poll`: compares the new values with
the cached ones (`{}` when absent); on change the interval becomes
`max(current * 0.9, min_interval)`, otherwise `min(current * 1.1,
max_interval)`; records the poll timestamp and caches the new values.
Returns the updated manager and whether the values changed. -/
def update_after_poll (m : AdaptivePollingManager) (block_name : String)
    (new_values : BlockVals) (now : ℚ) : AdaptivePollingManager × Bool :=
  let old_values := (m.block_last_values block_name).getD []
  let values_changed := decide (new_values ≠ old_values)
  let current := (m.block_intervals block_name).getD m.default_interval
  let new_interval :=
    if values_changed then max (current * (9/10)) m.min_interval
    else min (current * (11/10)) m.max_interval
  ({ m with
      block_intervals := fun b => if b = block_name then some new_interval else m.block_intervals b,
      block_last_poll := fun b => if b = block_name then some now else m.block_last_poll b,
      block_last_values := fun b => if b = block_name then some new_values
        else m.block_last_values b },
   values_changed)

/-- `AdaptivePollingManager.get_cached_values`. -/
def get_cached_values (m : AdaptivePollingManager) (block_name : String) : BlockVals :=
  (m.block_last_values block_name).getD []

/-- `AdaptivePollingManager.get_block_interval`. -/
def get_block_interval (m : AdaptivePollingManager) (block_name : String) : ℚ :=
  (m.block_intervals block_name).getD m.default_interval

/-- `AdaptivePollingManager.record_block_failure`: increments the block's
consecutive-failure count (from 0 when absent). -/
def record_block_failure (m : AdaptivePollingManager) (block_name : String) :
    AdaptivePollingManager :=
  { m with
      block_consecutive_failures := fun b =>
        if b = block_name then some ((m.block_consecutive_failures block_name).getD 0 + 1)
        else m.block_consecutive_failures b }

/-- `AdaptivePollingManager.reset_block_failures`: sets the count to 0. -/
def reset_block_failures (m : AdaptivePollingManager) (block_name : String) :
    AdaptivePollingManager :=
  { m with
      block_consecutive_failures := fun b =>
        if b = block_name then some 0 else m.block_consecutive_failures b }

/-- Sequence of `update_after_poll` calls, each giving the polled block, the
newly decoded values and the poll time. -/
def applyUpdates (m : AdaptivePollingManager) :
    List (String × BlockVals × ℚ) → AdaptivePollingManager
  | [] => m
  | (block_name, new_values, now) :: rest =>
      applyUpdates (update_after_poll m block_name new_values now).1 rest

/-- Shape of the interval written by `update_after_poll` for the polled block:
the previous interval (default when absent) times 0.9 on value change, capped
below by `min_interval`, or times 1.1 on no change, capped above by
`max_interval`. -/
theorem update_after_poll_interval (m : AdaptivePollingManager) (block_name : String)
    (new_values : BlockVals) (now : ℚ) :
    (update_after_poll m block_name new_values now).1.block_intervals block_name =
      some (if new_values ≠ (m.block_last_values block_name).getD []
        then max ((m.block_intervals block_name).getD m.default_interval * (9/10)) m.min_interval
        else min ((m.block_intervals block_name).getD m.default_interval * (11/10))
          m.max_interval) := by
  by_cases hch : new_values = (m.block_last_values block_name).getD []
  · simp [update_after_poll, hch]
  · simp [update_after_poll, hch]

/-- `update_after_poll` leaves other blocks' intervals alone. -/
theorem update_after_poll_interval_ne (m : AdaptivePollingManager) (block_name : String)
    (new_values : BlockVals) (now : ℚ) (b : String) (hb : b ≠ block_name) :
    (update_after_poll m block_name new_values now).1.block_intervals b =
      m.block_intervals b := by
  simp [update_after_poll, hb]

/-- Interval well-formedness of a manager: the bounds are ordered, the minimum
is positive, the default starting interval lies between them, and every
recorded per-block interval lies between them. -/
def IntervalInv (m : AdaptivePollingManager) : Prop :=
  0 < m.min_interval ∧ m.min_interval ≤ m.max_interval
  ∧ m.min_interval ≤ m.default_interval ∧ m.default_interval ≤ m.max_interval
  ∧ ∀ b q, m.block_intervals b = some q → m.min_interval ≤ q ∧ q ≤ m.max_interval

/-- One `update_after_poll` step preserves the interval invariant. -/
theorem intervalInv_update (m : AdaptivePollingManager) (block_name : String)
    (new_values : BlockVals) (now : ℚ) (h : IntervalInv m) :
    IntervalInv (update_after_poll m block_name new_values now).1 := by
  obtain ⟨h0, h1, h2, h3, h4⟩ := h
  have hcur1 : m.min_interval ≤ (m.block_intervals block_name).getD m.default_interval := by
    cases hbi : m.block_intervals block_name with
    | none => simpa using h2
    | some q => simpa using (h4 block_name q hbi).1
  have hcur2 : (m.block_intervals block_name).getD m.default_interval ≤ m.max_interval := by
    cases hbi : m.block_intervals block_name with
    | none => simpa using h3
    | some q => simpa using (h4 block_name q hbi).2
  have hcpos : (0:ℚ) < (m.block_intervals block_name).getD m.default_interval :=
    lt_of_lt_of_le h0 hcur1
  have hup : (m.block_intervals block_name).getD m.default_interval * (9/10)
      ≤ (m.block_intervals block_name).getD m.default_interval := by nlinarith
  have hdown : (m.block_intervals block_name).getD m.default_interval
      ≤ (m.block_intervals block_name).getD m.default_interval * (11/10) := by nlinarith
  refine ⟨h0, h1, h2, h3, ?_⟩
  intro b q hq
  by_cases hb : b = block_name
  · subst hb
    rw [update_after_poll_interval] at hq
    injection hq with hq
    split_ifs at hq
    · exact ⟨hq ▸ le_max_right _ _, hq ▸ max_le (le_trans hup hcur2) h1⟩
    · exact ⟨hq ▸ le_min (le_trans hcur1 hdown) h1, hq ▸ min_le_right _ _⟩
  · rw [update_after_poll_interval_ne m block_name new_values now b hb] at hq
    exact h4 b q hq

/-- The interval invariant holds along any update sequence. -/
theorem intervalInv_applyUpdates (updates : List (String × BlockVals × ℚ)) :
    ∀ (m : AdaptivePollingManager), IntervalInv m → IntervalInv (applyUpdates m updates) := by
  induction updates with
  | nil => intro m h; exact h
  | cons u rest ih =>
      intro m h
      obtain ⟨block_name, new_values, now⟩ := u
      exact ih _ (intervalInv_update m block_name new_values now h)

/-- `applyUpdates` does not change the configured bounds or the default. -/
theorem applyUpdates_fields (updates : List (String × BlockVals × ℚ)) :
    ∀ (m : AdaptivePollingManager),
      (applyUpdates m updates).min_interval = m.min_interval
      ∧ (applyUpdates m updates).max_interval = m.max_interval
      ∧ (applyUpdates m updates).default_interval = m.default_interval := by
  induction updates with
  | nil => intro m; exact ⟨rfl, rfl, rfl⟩
  | cons u rest ih =>
      intro m
      obtain ⟨block_name, new_values, now⟩ := u
      exact ih _

/-- C5: after each `update_after_poll` the block's interval is the previous
one (the default before the first update) times 0.9 on value change or times
1.1 on no change, clamped; the constructed manager's minimum interval is at
least the 10 s hard floor; and along every update sequence from a freshly
constructed manager whose default interval lies between the (floored) minimum
and the maximum — as with the integration's fixed configuration
(min 10 s, max 300 s, default 30 s) — every block's current interval stays
within [min_interval, max_interval]. -/
theorem adaptive_interval_invariant (min_i max_i dflt : ℚ)
    (updates : List (String × BlockVals × ℚ)) (b : String)
    (hmm : max min_i 10 ≤ max_i) (hd1 : max min_i 10 ≤ dflt) (hd2 : dflt ≤ max_i) :
    (∀ (m : AdaptivePollingManager) (name : String) (vals : BlockVals) (now : ℚ),
      (update_after_poll m name vals now).1.block_intervals name =
        some (if vals ≠ (m.block_last_values name).getD []
          then max ((m.block_intervals name).getD m.default_interval * (9/10)) m.min_interval
          else min ((m.block_intervals name).getD m.default_interval * (11/10)) m.max_interval))
  ∧ 10 ≤ (mkAdaptivePollingManager min_i max_i dflt).min_interval
  ∧ (mkAdaptivePollingManager min_i max_i dflt).min_interval
      ≤ get_block_interval (applyUpdates (mkAdaptivePollingManager min_i max_i dflt) updates) b
  ∧ get_block_interval (applyUpdates (mkAdaptivePollingManager min_i max_i dflt) updates) b
      ≤ max_i := by
  have hinv0 : IntervalInv (mkAdaptivePollingManager min_i max_i dflt) := by
    refine ⟨lt_of_lt_of_le (by norm_num) (le_max_right min_i 10), hmm, hd1, hd2, ?_⟩
    intro b q hq
    simp [mkAdaptivePollingManager] at hq
  obtain ⟨i0, i1, i2, i3, i4⟩ := intervalInv_applyUpdates updates _ hinv0
  obtain ⟨f1, f2, f3⟩ := applyUpdates_fields updates (mkAdaptivePollingManager min_i max_i dflt)
  refine ⟨fun m name vals now => update_after_poll_interval m name vals now,
    le_max_right min_i 10, ?_, ?_⟩
  · unfold get_block_interval
    cases hbi : (applyUpdates (mkAdaptivePollingManager min_i max_i dflt)
        updates).block_intervals b with
    | none =>
        simp only [hbi, Option.getD_none]
        rw [f3]
        exact hd1
    | some q =>
        simp only [hbi, Option.getD_some]
        have := (i4 b q hbi).1
        rw [f1] at this
        exact this
  · unfold get_block_interval
    cases hbi : (applyUpdates (mkAdaptivePollingManager min_i max_i dflt)
        updates).block_intervals b with
    | none =>
        simp only [hbi, Option.getD_none]
        rw [f3]
        exact hd2
    | some q =>
        simp only [hbi, Option.getD_some]
        have := (i4 b q hbi).2
        rw [f2] at this
        exact this

/-- Witness for C5 with the integration's configuration (10, 300, 30) and a
two-update sequence (a change then a no-change) on the grid block. -/
theorem adaptive_interval_invariant_witness :
    (mkAdaptivePollingManager 10 300 30).min_interval
      ≤ get_block_interval (applyUpdates (mkAdaptivePollingManager 10 300 30)
          [("grid", [("grid_power_total", 5)], 0), ("grid", [("grid_power_total", 5)], 30)])
          "grid"
  ∧ get_block_interval (applyUpdates (mkAdaptivePollingManager 10 300 30)
        [("grid", [("grid_power_total", 5)], 0), ("grid", [("grid_power_total", 5)], 30)])
        "grid" ≤ 300 :=
  ⟨(adaptive_interval_invariant 10 300 30
      [("grid", [("grid_power_total", 5)], 0), ("grid", [("grid_power_total", 5)], 30)]
      "grid" (by norm_num) (by norm_num) (by norm_num)).2.2.1,
   (adaptive_interval_invariant 10 300 30
      [("grid", [("grid_power_total", 5)], 0), ("grid", [("grid_power_total", 5)], 30)]
      "grid" (by norm_num) (by norm_num) (by norm_num)).2.2.2⟩

/-! ### Per-block fetch step and sticky snapshot
(`coordinator._fetch_data_adaptive`, `_async_update_data`, lines 321-472). -/

/-- The merged snapshot: a partial map from decoded field name to value. -/
abbrev Snapshot := String → Option ℚ

/-- Python `data.update(block_data)`: keys of the block dict override the
snapshot, all other keys are kept. -/
def snapshotUpdate (data : Snapshot) (block_data : BlockVals) : Snapshot :=
  fun k => match block_data.lookup k with
    | some v => some v
    | none => data k

/-- One block's handling inside `_fetch_data_adaptive` (lines 413-442): if the
block is due, a successful (non-empty) decode resets its failure counter,
updates its polling interval and overlays the decoded values onto the working
data; a failed (empty) decode only increments the failure counter, leaving the
working data untouched; a block that is not due changes nothing (its cached
values are already in the working data). -/
def fetchBlockStep (m : AdaptivePollingManager) (data : Snapshot) (now : ℚ)
    (block_name : String) (block_data : BlockVals) :
    AdaptivePollingManager × Snapshot × Bool :=
  if should_poll_block m block_name now then
    if block_data ≠ [] then
      let m1 := reset_block_failures m block_name
      let r := update_after_poll m1 block_name block_data now
      (r.1, snapshotUpdate data block_data, r.2)
    else
      (record_block_failure m block_name, data, false)
  else
    (m, data, false)

/-- C6 counterexample: after a successful grid poll at time 0 (interval 27 s),
a failed read at time 100 leaves the grid block's last-poll timestamp at 0 —
it is not advanced to the current time 100 as the claim states. -/
theorem block_failure_timestamp_counterexample :
    ((fetchBlockStep
        (update_after_poll (mkAdaptivePollingManager 10 300 30) "grid"
          [("grid_power_total", 5)] 0).1
        (fun _ => none) 100 "grid" []).1.block_last_poll "grid" = some 0)
  ∧ (some (0:ℚ) ≠ some (100:ℚ)) := by
  constructor
  · have hdue : should_poll_block
        (update_after_poll (mkAdaptivePollingManager 10 300 30) "grid"
          [("grid_power_total", 5)] 0).1 "grid" 100 = true := by
      simp only [should_poll_block, update_after_poll, mkAdaptivePollingManager]
      norm_num
    simp only [fetchBlockStep, hdue, if_true]
    simp [record_block_failure, update_after_poll, mkAdaptivePollingManager]
  · simp

/-- C6 (amended): a failed read of a due block changes exactly the block's
consecutive-failure count (incremented by 1): the block's interval, its
last-poll timestamp (not advanced) and its cached values are untouched, other
blocks' failure counts are untouched, the configured bounds are untouched, and
the working snapshot (hence the block's previously cached values in it) is
returned unchanged. -/
theorem block_failure_frame_effect (m : AdaptivePollingManager) (data : Snapshot)
    (now : ℚ) (block_name : String)
    (hdue : should_poll_block m block_name now = true) :
    ((fetchBlockStep m data now block_name []).1.block_consecutive_failures block_name
      = some ((m.block_consecutive_failures block_name).getD 0 + 1))
  ∧ (∀ b, b ≠ block_name →
      (fetchBlockStep m data now block_name []).1.block_consecutive_failures b
        = m.block_consecutive_failures b)
  ∧ (fetchBlockStep m data now block_name []).1.block_intervals = m.block_intervals
  ∧ (fetchBlockStep m data now block_name []).1.block_last_poll = m.block_last_poll
  ∧ (fetchBlockStep m data now block_name []).1.block_last_values = m.block_last_values
  ∧ (fetchBlockStep m data now block_name []).1.min_interval = m.min_interval
  ∧ (fetchBlockStep m data now block_name []).1.max_interval = m.max_interval
  ∧ (fetchBlockStep m data now block_name []).2.1 = data := by
  have hstep : fetchBlockStep m data now block_name []
      = (record_block_failure m block_name, data, false) := by
    simp [fetchBlockStep, hdue]
  rw [hstep]
  refine ⟨by simp [record_block_failure], ?_, rfl, rfl, rfl, rfl, rfl, rfl⟩
  intro b hb
  simp [record_block_failure, hb]

/-- Witness for C6 (amended): a failed read on a fresh manager (always due)
sets the grid failure count to 1 and leaves the snapshot unchanged. -/
theorem block_failure_frame_effect_witness :
    ((fetchBlockStep (mkAdaptivePollingManager 10 300 30) (fun _ => none) 0 "grid" []).1.block_consecutive_failures "grid" = some 1)
  ∧ (fetchBlockStep (mkAdaptivePollingManager 10 300 30) (fun _ => none) 0 "grid" []).2.1
      = (fun _ => none) :=
  ⟨(block_failure_frame_effect (mkAdaptivePollingManager 10 300 30) (fun _ => none) 0 "grid"
      (by decide)).1,
   (block_failure_frame_effect (mkAdaptivePollingManager 10 300 30) (fun _ => none) 0 "grid"
      (by decide)).2.2.2.2.2.2.2⟩

/-- Sequential processing of all due blocks in one `_fetch_data_adaptive` call:
the working data starts as a copy of the cached snapshot and each block's read
result (empty = failed read) is handled by `fetchBlockStep`. -/
def runBlocks : AdaptivePollingManager → Snapshot → ℚ → List (String × BlockVals) →
    AdaptivePollingManager × Snapshot × Bool
  | m, data, _, [] => (m, data, false)
  | m, data, now, (block_name, block_data) :: rest =>
      let r := fetchBlockStep m data now block_name block_data
      let r2 := runBlocks r.1 r.2.1 now rest
      (r2.1, r2.2.1, r.2.2 || r2.2.2)

/-- Python `dict.update` between two partial maps: keys of the second override
the first. -/
def snapshotOverride (base upd : Snapshot) : Snapshot :=
  fun k => match upd k with
    | some v => some v
    | none => base k

/-- One coordinator fetch cycle (success path of `_async_update_data` plus
`_fetch_data_adaptive`): the working data starts from the cached snapshot
(`data = dict(self._last_known_data)`), each block is processed, the
derived-value writes (`derived`, the keys assigned by
`_calculate_derived_values`) are overlaid, and the result is merged back over
the cache (`self._last_known_data.update(data)`). -/
def coordinatorCycle (m : AdaptivePollingManager) (cache : Snapshot) (now : ℚ)
    (reads : List (String × BlockVals)) (derived : Snapshot) :
    AdaptivePollingManager × Snapshot :=
  let r := runBlocks m cache now reads
  let data := snapshotOverride r.2.1 derived
  (r.1, snapshotOverride cache data)

/-- `coordinator.set_optimistic_value` on the partial-map snapshot model:
`self._last_known_data[key] = value`. -/
def applyOptimistic (cache : Snapshot) (key : String) (value : ℚ) : Snapshot :=
  fun k => if k = key then some value else cache k

/-- Operations that mutate the cached snapshot across the coordinator's life:
a fetch cycle (with that cycle's per-block read results and derived-value
writes) or an optimistic write. -/
inductive CoordOp where
  | cycle (now : ℚ) (reads : List (String × BlockVals)) (derived : Snapshot)
  | setOpt (key : String) (value : ℚ)

/-- Run a sequence of coordinator operations from a manager and cache. -/
def runCoordOps : AdaptivePollingManager → Snapshot → List CoordOp →
    AdaptivePollingManager × Snapshot
  | m, cache, [] => (m, cache)
  | m, cache, CoordOp.cycle now reads derived :: rest =>
      runCoordOps (coordinatorCycle m cache now reads derived).1
        (coordinatorCycle m cache now reads derived).2 rest
  | m, cache, CoordOp.setOpt key value :: rest =>
      runCoordOps m (applyOptimistic cache key value) rest

/-- An operation leaves key `k` alone: a cycle in which no block decode and no
derived write defines `k`, or an optimistic write to a different key. -/
def opAvoids (k : String) : CoordOp → Prop
  | CoordOp.cycle _ reads derived => derived k = none ∧ ∀ p ∈ reads, p.2.lookup k = none
  | CoordOp.setOpt key _ => key ≠ k

/-- A block step whose decode does not define `k` leaves the working data at
`k` unchanged (in particular any failed read does). -/
theorem fetchBlockStep_preserve (m : AdaptivePollingManager) (data : Snapshot)
    (now : ℚ) (block_name : String) (block_data : BlockVals) (k : String)
    (hk : block_data.lookup k = none) :
    (fetchBlockStep m data now block_name block_data).2.1 k = data k := by
  unfold fetchBlockStep
  split_ifs <;> simp [snapshotUpdate, hk]

/-- `runBlocks` leaves `k` unchanged when no processed block decode defines it. -/
theorem runBlocks_preserve (now : ℚ) (k : String) :
    ∀ (reads : List (String × BlockVals)) (m : AdaptivePollingManager) (data : Snapshot),
      (∀ p ∈ reads, p.2.lookup k = none) →
      (runBlocks m data now reads).2.1 k = data k := by
  intro reads
  induction reads with
  | nil => intro m data _; rfl
  | cons p rest ih =>
      intro m data h
      obtain ⟨block_name, block_data⟩ := p
      have h1 : block_data.lookup k = none := h _ (List.mem_cons_self _ _)
      have h2 : ∀ q ∈ rest, q.2.lookup k = none := fun q hq => h q (List.mem_cons_of_mem _ hq)
      simp only [runBlocks]
      rw [ih _ _ h2, fetchBlockStep_preserve m data now block_name block_data k h1]

/-- Overriding with a map that does not define `k` keeps the base value. -/
theorem snapshotOverride_undef (base upd : Snapshot) (k : String) (h : upd k = none) :
    snapshotOverride base upd k = base k := by
  simp [snapshotOverride, h]

/-- Overriding with a map that agrees with the base at `k` keeps the base value. -/
theorem snapshotOverride_agree (base upd : Snapshot) (k : String) (h : upd k = base k) :
    snapshotOverride base upd k = base k := by
  unfold snapshotOverride
  rw [h]
  cases hb : base k <;> simp

/-- The merge never drops a populated key. -/
theorem snapshotOverride_mono (base upd : Snapshot) (k : String) (h : base k ≠ none) :
    snapshotOverride base upd k ≠ none := by
  unfold snapshotOverride
  cases hu : upd k <;> simp_all

/-- A fetch cycle keeps every populated key populated: the merge step lays the
cycle's data over the previous cache. -/
theorem coordinatorCycle_mono (m : AdaptivePollingManager) (cache : Snapshot) (now : ℚ)
    (reads : List (String × BlockVals)) (derived : Snapshot) (k : String)
    (h : cache k ≠ none) :
    (coordinatorCycle m cache now reads derived).2 k ≠ none :=
  snapshotOverride_mono cache _ k h

/-- A fetch cycle that decodes nothing for `k` (every block read result and
the derived writes avoid `k`) leaves the cached value at `k` unchanged. -/
theorem coordinatorCycle_preserve (m : AdaptivePollingManager) (cache : Snapshot) (now : ℚ)
    (reads : List (String × BlockVals)) (derived : Snapshot) (k : String)
    (hd : derived k = none) (hr : ∀ p ∈ reads, p.2.lookup k = none) :
    (coordinatorCycle m cache now reads derived).2 k = cache k := by
  unfold coordinatorCycle
  have h1 : (runBlocks m cache now reads).2.1 k = cache k :=
    runBlocks_preserve now k reads m cache hr
  refine snapshotOverride_agree cache _ k ?_
  rw [snapshotOverride_undef _ derived k hd, h1]

/-- C7: sticky-cache invariant — across any sequence of coordinator cycles
(with arbitrary per-block read results and derived writes) and optimistic
writes, a key populated in the cached snapshot is never removed; and a key
that no successful block decode, derived write or optimistic write touches —
in particular a key of a block that fails every remaining cycle after having
succeeded once — keeps its last value unchanged. -/
theorem sticky_cache_invariant (m : AdaptivePollingManager) (cache : Snapshot)
    (ops : List CoordOp) (k : String) :
    (cache k ≠ none → (runCoordOps m cache ops).2 k ≠ none)
  ∧ ((∀ op ∈ ops, opAvoids k op) → (runCoordOps m cache ops).2 k = cache k) := by
  induction ops generalizing m cache with
  | nil => exact ⟨fun h => h, fun _ => rfl⟩
  | cons op rest ih =>
      cases op with
      | cycle now reads derived =>
          constructor
          · intro h
            exact (ih _ _).1 (coordinatorCycle_mono m cache now reads derived k h)
          · intro h
            have hop : opAvoids k (CoordOp.cycle now reads derived) :=
              h _ (List.mem_cons_self _ _)
            obtain ⟨hd, hr⟩ := hop
            have hrest : ∀ op ∈ rest, opAvoids k op :=
              fun op hopm => h op (List.mem_cons_of_mem _ hopm)
            calc (runCoordOps m cache (CoordOp.cycle now reads derived :: rest)).2 k
                = (coordinatorCycle m cache now reads derived).2 k := (ih _ _).2 hrest
              _ = cache k := coordinatorCycle_preserve m cache now reads derived k hd hr
      | setOpt key value =>
          constructor
          · intro h
            refine (ih _ _).1 ?_
            unfold applyOptimistic
            split_ifs <;> simp_all
          · intro h
            have hop : opAvoids k (CoordOp.setOpt key value) := h _ (List.mem_cons_self _ _)
            have hrest : ∀ op ∈ rest, opAvoids k op :=
              fun op hopm => h op (List.mem_cons_of_mem _ hopm)
            calc (runCoordOps m cache (CoordOp.setOpt key value :: rest)).2 k
                = applyOptimistic cache key value k := (ih _ _).2 hrest
              _ = cache k := by
                  unfold applyOptimistic
                  rw [if_neg (fun hkk => hop (hkk.symm))]

/-- Witness for C7: a grid value cached as 7 survives two cycles in which the
battery block succeeds once and then fails twice. -/
theorem sticky_cache_invariant_witness :
    (runCoordOps (mkAdaptivePollingManager 10 300 30)
      (fun j => if j = "grid_power_total" then some 7 else none)
      [CoordOp.cycle 0 [("battery", [("battery_power", 5)])] (fun _ => none),
       CoordOp.cycle 50 [("battery", [])] (fun _ => none),
       CoordOp.cycle 100 [("battery", [])] (fun _ => none)]).2 "grid_power_total"
      = some 7
  ∧ (runCoordOps (mkAdaptivePollingManager 10 300 30)
      (fun j => if j = "grid_power_total" then some 7 else none)
      [CoordOp.cycle 0 [("battery", [("battery_power", 5)])] (fun _ => none),
       CoordOp.cycle 50 [("battery", [])] (fun _ => none),
       CoordOp.cycle 100 [("battery", [])] (fun _ => none)]).2 "grid_power_total"
      ≠ none := by
  have havoid : ∀ op ∈ [CoordOp.cycle 0 [("battery", [("battery_power", (5:ℚ))])] (fun _ => none),
       CoordOp.cycle 50 [("battery", [])] (fun _ => none),
       CoordOp.cycle 100 [("battery", [])] (fun _ => none)],
      opAvoids "grid_power_total" op := by
    intro op hop
    simp only [List.mem_cons, List.not_mem_nil, or_false] at hop
    rcases hop with rfl | rfl | rfl <;>
      refine ⟨rfl, ?_⟩ <;> intro p hp <;>
      simp only [List.mem_cons, List.not_mem_nil, or_false] at hp <;>
      subst hp <;> decide
  have h1 := (sticky_cache_invariant (mkAdaptivePollingManager 10 300 30)
      (fun j => if j = "grid_power_total" then some 7 else none)
      [CoordOp.cycle 0 [("battery", [("battery_power", 5)])] (fun _ => none),
       CoordOp.cycle 50 [("battery", [])] (fun _ => none),
       CoordOp.cycle 100 [("battery", [])] (fun _ => none)] "grid_power_total").2 havoid
  have h2 := (sticky_cache_invariant (mkAdaptivePollingManager 10 300 30)
      (fun j => if j = "grid_power_total" then some 7 else none)
      [CoordOp.cycle 0 [("battery", [("battery_power", 5)])] (fun _ => none),
       CoordOp.cycle 50 [("battery", [])] (fun _ => none),
       CoordOp.cycle 100 [("battery", [])] (fun _ => none)] "grid_power_total").1 (by simp)
  refine ⟨?_, h2⟩
  rw [h1]
  simp

/-! ### Daily PV energy (`coordinator._calculate_daily_pv_energy`, lines 671-745) -/

/-- Python `round(x, 2)`: banker's rounding to two decimal places. -/
def pythonRound2 (q : ℚ) : ℚ := (pythonRound (q * 100) : ℚ) / 100

/-- Daily-energy tracking state held on the coordinator; dates are modelled as
integers (Python `date` objects are only compared for equality here). -/
structure DailyEnergyState where
  last_reset_date : Option ℤ
  pv_inverter_energy_at_midnight : Option ℚ
  daily_energy_before_unavailable : Option ℚ

/-- `coordinator._calculate_daily_pv_energy`: returns
`((daily_energy, data_changed), new_state)`.  A date different from the stored
reset date (or no stored date) resets the baseline to the current total,
clears the preserved value and returns 0; on the same date with a baseline,
a negative difference returns the preserved positive value unchanged when one
exists and otherwise resets only the baseline; a nonnegative difference is
returned rounded to 2 decimals, updating the preserved value when positive;
with no baseline the state is initialised (first run ever). -/
def calculate_daily_pv_energy (st : DailyEnergyState) (total_energy : ℚ)
    (current_date : ℤ) : (ℚ × Bool) × DailyEnergyState :=
  if st.last_reset_date ≠ some current_date then
    ((0, true),
      { last_reset_date := some current_date,
        pv_inverter_energy_at_midnight := some total_energy,
        daily_energy_before_unavailable := none })
  else
    match st.pv_inverter_energy_at_midnight with
    | some baseline =>
        let daily_energy := total_energy - baseline
        if daily_energy < 0 then
          match st.daily_energy_before_unavailable with
          | some p =>
              if 0 < p then ((p, false), st)
              else ((0, true), { st with pv_inverter_energy_at_midnight := some total_energy })
          | none =>
              ((0, true), { st with pv_inverter_energy_at_midnight := some total_energy })
        else
          if 0 < daily_energy then
            ((pythonRound2 daily_energy,
              decide (st.daily_energy_before_unavailable ≠ some (pythonRound2 daily_energy))),
             { st with daily_energy_before_unavailable := some (pythonRound2 daily_energy) })
          else
            ((pythonRound2 daily_energy, false), st)
    | none =>
        ((0, true),
          { last_reset_date := some current_date,
            pv_inverter_energy_at_midnight := some total_energy,
            daily_energy_before_unavailable := some 0 })

/-- C8: invoked on the stored reset date with a lifetime total strictly below
the stored midnight baseline, the calculator returns a preserved positive
daily value unchanged and leaves the whole state (in particular the baseline)
untouched; when no preserved positive value exists it resets only the
baseline to the current total and returns 0 (flagged as a data change). -/
theorem daily_energy_rollback_safety (st : DailyEnergyState) (total_energy : ℚ)
    (current_date : ℤ) (baseline : ℚ)
    (hdate : st.last_reset_date = some current_date)
    (hbase : st.pv_inverter_energy_at_midnight = some baseline)
    (hlt : total_energy < baseline) :
    (∀ p, st.daily_energy_before_unavailable = some p → 0 < p →
      calculate_daily_pv_energy st total_energy current_date = ((p, false), st))
  ∧ (st.daily_energy_before_unavailable = none →
      calculate_daily_pv_energy st total_energy current_date =
        ((0, true), { st with pv_inverter_energy_at_midnight := some total_energy }))
  ∧ (∀ p, st.daily_energy_before_unavailable = some p → p ≤ 0 →
      calculate_daily_pv_energy st total_energy current_date =
        ((0, true), { st with pv_inverter_energy_at_midnight := some total_energy })) := by
  refine ⟨?_, ?_, ?_⟩
  · intro p hp hppos
    simp [calculate_daily_pv_energy, hdate, hbase, hp, hlt, hppos]
  · intro hp
    simp [calculate_daily_pv_energy, hdate, hbase, hp, hlt]
  · intro p hp hple
    simp [calculate_daily_pv_energy, hdate, hbase, hp, hlt, not_lt.mpr hple]

/-- Witness for C8: on date 20000 with baseline 100 kWh, total 90 kWh and
preserved value 5 kWh, the calculator returns 5 and the state is unchanged;
with no preserved value it resets the baseline to 90 and returns 0. -/
theorem daily_energy_rollback_safety_witness :
    calculate_daily_pv_energy ⟨some 20000, some 100, some 5⟩ 90 20000
      = ((5, false), ⟨some 20000, some 100, some 5⟩)
  ∧ calculate_daily_pv_energy ⟨some 20000, some 100, none⟩ 90 20000
      = ((0, true), ⟨some 20000, some 90, none⟩) :=
  ⟨(daily_energy_rollback_safety ⟨some 20000, some 100, some 5⟩ 90 20000 100
      rfl rfl (by norm_num)).1 5 rfl (by norm_num),
   (daily_energy_rollback_safety ⟨some 20000, some 100, none⟩ 90 20000 100
      rfl rfl (by norm_num)).2.1 rfl⟩

/-! ### Transport retry (`modbus_client._retry_operation`, `_is_transient_error`) -/

/-- `modbus_client.MAX_RETRIES = 3`. -/
def MAX_RETRIES : ℕ := 3

/-- `modbus_client.INITIAL_RETRY_DELAY = 0.5` seconds. -/
def INITIAL_RETRY_DELAY : ℚ := 0.5

/-- `modbus_client.MAX_RETRY_DELAY = 5.0` seconds. -/
def MAX_RETRY_DELAY : ℚ := 5

/-- Exception raised by one attempt of a wrapped operation, as classified by
`modbus_client._is_transient_error`: the constructor is the Python exception
type (`ConnectionException`, `ConnectionError`, `TimeoutError`, `OSError`,
plain `ModbusException`, or anything else such as `ValueError`), carrying the
exception message `str(e)`. -/
inductive PyException where
  | connectionException (msg : String)
  | connectionError (msg : String)
  | timeoutError (msg : String)
  | osError (msg : String)
  | modbusException (msg : String)
  | otherError (msg : String)

/-- The transient message keywords of `_is_transient_error`. -/
def transient_keywords : List String :=
  ["timeout", "connection", "unreachable", "refused", "reset"]

/-- Python `keyword in s` on character lists: `pat` occurs contiguously in `s`. -/
def charsHaveInfix : List Char → List Char → Bool
  | [], pat => pat.isEmpty
  | c :: rest, pat => pat.isPrefixOf (c :: rest) || charsHaveInfix rest pat

/-- `modbus_client._is_transient_error`: network/connection exception types
are transient; a `ModbusException` is transient when its message holds one of
the keywords; everything else is permanent.  The carried message stands for
the already lowercased `str(e).lower()`. -/
def is_transient_error : PyException → Bool
  | PyException.connectionException _ => true
  | PyException.connectionError _ => true
  | PyException.timeoutError _ => true
  | PyException.osError _ => true
  | PyException.modbusException msg =>
      transient_keywords.any (fun kw => charsHaveInfix msg.toList kw.toList)
  | PyException.otherError _ => false

/-- Outcome of one attempt of the wrapped operation: success with a value, or
an exception. -/
inductive AttemptOutcome where
  | ok (v : ℤ)
  | err (e : PyException)

/-- Loop body of `_retry_operation` (client not closing): attempt numbers run
from 1 to `MAX_RETRIES`; a failure that is transient and not on the final
attempt sleeps `retry_delay` and doubles it capped at `MAX_RETRY_DELAY`; any
other failure breaks out immediately with no sleep.  Returns the result
(`none` after a failure, mirroring the Python `return None`) and the list of
backoff sleeps performed, in order. -/
def retryAux (outcomes : ℕ → AttemptOutcome) : ℕ → ℕ → ℚ → Option ℤ × List ℚ
  | 0, _, _ => (none, [])
  | fuel + 1, attempt, retry_delay =>
      match outcomes attempt with
      | AttemptOutcome.ok v => (some v, [])
      | AttemptOutcome.err e =>
          if attempt < MAX_RETRIES ∧ is_transient_error e = true then
            let rest := retryAux outcomes fuel (attempt + 1)
              (min (retry_delay * 2) MAX_RETRY_DELAY)
            (rest.1, retry_delay :: rest.2)
          else (none, [])

/-- `modbus_client._retry_operation`, with the operation's behaviour per
attempt given by `outcomes`. -/
def retry_operation (outcomes : ℕ → AttemptOutcome) : Option ℤ × List ℚ :=
  retryAux outcomes MAX_RETRIES 1 INITIAL_RETRY_DELAY

/-- C9: complete behaviour of the retry wrapper — at most 3 total attempts;
only errors classified transient (by exception type or message keyword) are
retried, with backoff sleeps 0.5 s then `min(0.5 * 2, 5) = 1` s; an error
classified permanent ends the operation after the current attempt with no
further sleep and no retry; the number of backoff sleeps never exceeds
`MAX_RETRIES - 1`; and the classifier marks timeouts, connection errors and
keyword-matching Modbus errors transient but a `ValueError`-like or plain
Modbus protocol error permanent. -/
theorem retry_operation_spec (outcomes : ℕ → AttemptOutcome) :
    retry_operation outcomes =
      (match outcomes 1 with
        | AttemptOutcome.ok v => (some v, [])
        | AttemptOutcome.err e1 =>
            if is_transient_error e1 then
              match outcomes 2 with
              | AttemptOutcome.ok v => (some v, [1/2])
              | AttemptOutcome.err e2 =>
                  if is_transient_error e2 then
                    match outcomes 3 with
                    | AttemptOutcome.ok v => (some v, [1/2, 1])
                    | AttemptOutcome.err _ => (none, [1/2, 1])
                  else (none, [1/2])
            else (none, []))
  ∧ (retry_operation outcomes).2.length ≤ MAX_RETRIES - 1
  ∧ is_transient_error (PyException.timeoutError "read timed out") = true
  ∧ is_transient_error (PyException.connectionError "refused") = true
  ∧ is_transient_error (PyException.modbusException "connection reset by peer") = true
  ∧ is_transient_error (PyException.modbusException "modbus error: illegal data address") = false
  ∧ is_transient_error (PyException.otherError "invalid slave_id type") = false := by
  have hstep : retry_operation outcomes =
      (match outcomes 1 with
        | AttemptOutcome.ok v => (some v, [])
        | AttemptOutcome.err e1 =>
            if is_transient_error e1 then
              match outcomes 2 with
              | AttemptOutcome.ok v => (some v, [1/2])
              | AttemptOutcome.err e2 =>
                  if is_transient_error e2 then
                    match outcomes 3 with
                    | AttemptOutcome.ok v => (some v, [1/2, 1])
                    | AttemptOutcome.err _ => (none, [1/2, 1])
                  else (none, [1/2])
            else (none, [])) := by
    cases h1 : outcomes 1 with
    | ok v => simp [retry_operation, retryAux, MAX_RETRIES, h1]
    | err e1 =>
        by_cases ht1 : is_transient_error e1 = true
        · cases h2 : outcomes 2 with
          | ok v =>
              simp [retry_operation, retryAux, MAX_RETRIES, INITIAL_RETRY_DELAY,
                h1, h2, ht1]
              norm_num
          | err e2 =>
              by_cases ht2 : is_transient_error e2 = true
              · cases h3 : outcomes 3 with
                | ok v =>
                    simp [retry_operation, retryAux, MAX_RETRIES, INITIAL_RETRY_DELAY,
                      MAX_RETRY_DELAY, h1, h2, h3, ht1, ht2]
                    norm_num
                | err e3 =>
                    simp [retry_operation, retryAux, MAX_RETRIES, INITIAL_RETRY_DELAY,
                      MAX_RETRY_DELAY, h1, h2, h3, ht1, ht2]
                    norm_num
              · simp [retry_operation, retryAux, MAX_RETRIES, INITIAL_RETRY_DELAY,
                  h1, h2, ht1, ht2]
                norm_num
        · simp [retry_operation, retryAux, MAX_RETRIES, h1, ht1]
  refine ⟨hstep, ?_, by decide, by decide, by decide, by decide, by decide⟩
  rw [hstep]
  cases h1 : outcomes 1 with
  | ok v => simp [MAX_RETRIES]
  | err e1 =>
      by_cases ht1 : is_transient_error e1 = true
      · cases h2 : outcomes 2 with
        | ok v => simp [MAX_RETRIES, ht1]
        | err e2 =>
            by_cases ht2 : is_transient_error e2 = true
            · cases h3 : outcomes 3 <;> simp [MAX_RETRIES, ht1, ht2]
            · simp [MAX_RETRIES, ht1, ht2]
      · simp [MAX_RETRIES, ht1]

/-! ### Cached-data validity (`coordinator.has_valid_data`, `set_optimistic_value`) -/

/-- `coordinator.DATA_STALE_THRESHOLD` = 12 hours, in seconds. -/
def DATA_STALE_THRESHOLD_SECONDS : ℚ := 43200

/-- Cache-related coordinator state: `self._last_known_data` as an
insertion-ordered association list (so dict truthiness is emptiness) and
`self._last_successful_data_time`. -/
structure CoordinatorCacheState where
  last_known_data : List (String × ℚ)
  last_successful_data_time : Option ℚ

/-- Python `d[key] = value` on an association list: overwrite in place when
the key exists, else append. -/
def assocSet (l : List (String × ℚ)) (key : String) (value : ℚ) : List (String × ℚ) :=
  if l.any (fun p => p.1 = key) then
    l.map (fun p => if p.1 = key then (key, value) else p)
  else l ++ [(key, value)]

/-- `coordinator.set_optimistic_value`: immediate synchronous cache patch. -/
def coord_set_optimistic_value (s : CoordinatorCacheState) (key : String) (value : ℚ) :
    CoordinatorCacheState :=
  { s with last_known_data := assocSet s.last_known_data key value }

/-- `coordinator.is_data_stale`: false with no timestamp (startup state), else
age strictly above the 12-hour threshold. -/
def is_data_stale (s : CoordinatorCacheState) (now : ℚ) : Bool :=
  match s.last_successful_data_time with
  | none => false
  | some t => decide (DATA_STALE_THRESHOLD_SECONDS < now - t)

/-- `coordinator.has_valid_data`: false with an empty cache; true with a
non-empty cache and no timestamp; else the negation of staleness. -/
def has_valid_data (s : CoordinatorCacheState) (now : ℚ) : Bool :=
  if s.last_known_data.isEmpty then false
  else
    match s.last_successful_data_time with
    | none => true
    | some _ => !(is_data_stale s now)

/-- C10: calling `set_optimistic_value` on a coordinator that has never
fetched anything (empty cache, no success timestamp) makes `has_valid_data`
true immediately, although no register was ever read. -/
theorem optimistic_value_makes_data_valid (key : String) (value : ℚ) (now : ℚ) :
    has_valid_data (coord_set_optimistic_value ⟨[], none⟩ key value) now = true := by
  simp [has_valid_data, coord_set_optimistic_value, assocSet]
